import Mathlib

/-!
Verification of the invoice image normalization pipeline
(`src/image_processor/views.py`).

The pipeline logic of the repository is orchestration around OpenCV / PIL
primitives.  The repository code itself is embedded faithfully below;
the third-party image primitives (median blur, bilateral filter, CLAHE,
Canny, contour extraction, morphology, PIL sharpness enhancement, ...)
are external collaborators and are modelled as an abstract operation
record `CVOps`, with the contracts the code relies on (dimension
preservation for the preprocessing filters) as proof fields.  Integer
conversions that OpenCV performs exactly (the fixed-point RGB to gray
conversion) are modelled executably.

An image is a total pixel function together with its extent; a pixel
value is a natural number (intended range 0..255).  `pix c x y` is the
sample of channel `c` at column `x`, row `y`.
-/

structure RasterImage where
  width : ℕ
  height : ℕ
  channels : ℕ
  pix : ℕ → ℕ → ℕ → ℕ

/-- The gray conversion both `preprocess_image_aggressive` (views.py 104-108),
`detect_and_crop_invoice_improved` (views.py 138-142) and
`process_with_custom_params` (views.py 541-544) perform: if the array has 3
channels apply `cv2.cvtColor(..., COLOR_RGB2GRAY)`, else use it as is.
OpenCV computes RGB2GRAY in 14-bit fixed point:
`(4899*R + 9617*G + 1868*B + 8192) >> 14` (the coefficients are
0.299 / 0.587 / 0.114 scaled by 2^14), which is exact integer arithmetic. -/
def cvtGray (img : RasterImage) : RasterImage :=
  if img.channels = 3 then
    { width := img.width, height := img.height, channels := 1,
      pix := fun _ x y =>
        (4899 * img.pix 0 x y + 9617 * img.pix 1 x y + 1868 * img.pix 2 x y + 8192) / 16384 }
  else img

/-- `cv2.cvtColor(..., COLOR_GRAY2RGB)` (views.py 125): replicate the single
channel into three identical channels. -/
def gray2rgb (g : RasterImage) : RasterImage :=
  { width := g.width, height := g.height, channels := 3,
    pix := fun _ x y => g.pix 0 x y }

/-- A crop region in image coordinates, as computed in views.py 311-317. -/
structure Region where
  x : ℤ
  y : ℤ
  w : ℤ
  h : ℤ

/-- `image.crop((x, y, x + cw, y + ch))` (views.py 322) for an in-bounds box:
the result has extent `cw × ch` and its pixel `(i, j)` is the source pixel
`(x + i, y + j)`. -/
def cropImg (img : RasterImage) (r : Region) : RasterImage :=
  { width := r.w.toNat, height := r.h.toNat, channels := img.channels,
    pix := fun c i j => img.pix c (r.x.toNat + i) (r.y.toNat + j) }

/-- What the detection strategies read off one contour returned by
`cv2.findContours`: `cv2.contourArea` (a float, modelled as ℚ),
`cv2.boundingRect` (integers), and the vertex count of the
Douglas-Peucker approximation `cv2.approxPolyDP(cnt, 0.02 * peri)`
(views.py 178-181). -/
structure Contour where
  area : ℚ
  rx : ℤ
  ry : ℤ
  rw : ℤ
  rh : ℤ
  approxLen : ℕ

/-- A boundary candidate `(x, y, cw, ch, area)` as the strategies return it
(views.py 196, 236, 276). -/
structure Cand where
  x : ℤ
  y : ℤ
  cw : ℤ
  ch : ℤ
  area : ℚ

/-- The OpenCV / PIL primitives the pipeline calls, as abstract operations.
Each field stands for one fixed call shape in views.py; the `_dims` proof
fields record the library contract the code relies on, that these filters
return an image of the same extent as their input. -/
structure CVOps where
  medianBlur : ℤ → RasterImage → RasterImage
  bilateral : ℤ → ℤ → RasterImage → RasterImage
  clahe : ℚ → ℤ → RasterImage → RasterImage
  morphClose3 : RasterImage → RasterImage
  gaussianBlur5 : RasterImage → RasterImage
  gaussianBlurK : ℤ → RasterImage → RasterImage
  canny : RasterImage → RasterImage
  dilate5x2 : RasterImage → RasterImage
  otsu : RasterImage → RasterImage
  bitwiseNot : RasterImage → RasterImage
  morphCloseOpen10 : RasterImage → RasterImage
  threshBinary : ℚ → RasterImage → RasterImage
  threshBinaryInv : ℚ → RasterImage → RasterImage
  morphCloseOpen7 : RasterImage → RasterImage
  meanBrightness : RasterImage → ℚ
  findContours : RasterImage → List Contour
  sharpen : ℚ → RasterImage → RasterImage
  adaptiveThreshold : ℤ → ℤ → RasterImage → RasterImage
  morphOpen : ℤ → RasterImage → RasterImage
  morphClose : ℤ → RasterImage → RasterImage
  medianBlur_dims : ∀ k g, (medianBlur k g).width = g.width ∧ (medianBlur k g).height = g.height
  bilateral_dims : ∀ d s g, (bilateral d s g).width = g.width ∧ (bilateral d s g).height = g.height
  morphClose3_dims : ∀ g, (morphClose3 g).width = g.width ∧ (morphClose3 g).height = g.height
  clahe_dims : ∀ cl gr g, (clahe cl gr g).width = g.width ∧ (clahe cl gr g).height = g.height

/-- Insertion step of a stable descending sort: `x` (coming from an earlier
position than everything in the already sorted list) is placed before the
first element it is greater than or equal to under `ge`. -/
def insertDescBy {α : Type} (ge : α → α → Bool) (x : α) : List α → List α
  | [] => [x]
  | y :: ys => if ge x y then x :: y :: ys else y :: insertDescBy ge x ys

/-- Stable descending sort, modelling Python `list.sort(..., reverse=True)`:
the result is ordered descending under `ge` and elements that compare equal
keep their original order. -/
def sortDescBy {α : Type} (ge : α → α → Bool) : List α → List α
  | [] => []
  | x :: xs => insertDescBy ge x (sortDescBy ge xs)

/-- Descending lexicographic comparison of the tuples
`(area, x, y, cw, ch)` that `strategy_otsu` sorts with
`results.sort(reverse=True)` (views.py 234): Python compares tuples
lexicographically. -/
def otsuTupleGe (a b : ℚ × ℤ × ℤ × ℤ × ℤ) : Bool :=
  if a.1 > b.1 then true else if b.1 > a.1 then false
  else if a.2.1 > b.2.1 then true else if b.2.1 > a.2.1 then false
  else if a.2.2.1 > b.2.2.1 then true else if b.2.2.1 > a.2.2.1 then false
  else if a.2.2.2.1 > b.2.2.2.1 then true else if b.2.2.2.1 > a.2.2.2.1 then false
  else decide (b.2.2.2.2 ≤ a.2.2.2.2)

/-- Loop body of `strategy_canny` (views.py 174-196).  The accumulator is
`(best, best_score)`.  Float constants are modelled exactly:
0.10 = 1/10, 0.98 = 49/50, 0.3 = 3/10, 0.7 = 7/10. -/
def canny_step (w h : ℕ) (acc : Option Cand × ℚ) (cnt : Contour) : Option Cand × ℚ :=
  if ((w * h : ℕ) : ℚ) * (1/10) < cnt.area ∧ cnt.area < ((w * h : ℕ) : ℚ) * (49/50) then
    let aspect_ratio : ℚ := if 0 < cnt.rh then (cnt.rw : ℚ) / (cnt.rh : ℚ) else 0
    let is_full := cnt.rx ≤ 10 ∧ cnt.ry ≤ 10 ∧ (w : ℤ) - 20 ≤ cnt.rw ∧ (h : ℤ) - 20 ≤ cnt.rh
    if ¬ is_full ∧ 3/10 < aspect_ratio ∧ aspect_ratio < 3 then
      let vertices_score : ℚ := if cnt.approxLen = 4 then 1 else 7/10
      let score := cnt.area * vertices_score
      if acc.2 < score then (some ⟨cnt.rx, cnt.ry, cnt.rw, cnt.rh, cnt.area⟩, score)
      else acc
    else acc
  else acc

/-- ESTRATEGIA 1 (views.py 149-198): Gaussian blur, Canny edges, dilation,
external contours, then keep the highest-scoring contour in the area band
with acceptable aspect ratio that is not the whole image. -/
def strategy_canny (ops : CVOps) (gray : RasterImage) : Option Cand :=
  let blurred := ops.gaussianBlur5 gray
  let edges := ops.canny blurred
  let dilated := ops.dilate5x2 edges
  let contours := ops.findContours dilated
  if contours.isEmpty then none
  else (contours.foldl (canny_step gray.width gray.height) (none, 0)).1

/-- Contour filter of `strategy_otsu` (views.py 222-231): a surviving contour
contributes the tuple `(area, x, y, cw, ch)`. -/
def otsu_keep (w h : ℕ) (cnt : Contour) : Option (ℚ × ℤ × ℤ × ℤ × ℤ) :=
  if ((w * h : ℕ) : ℚ) * (1/10) < cnt.area ∧ cnt.area < ((w * h : ℕ) : ℚ) * (49/50) then
    let aspect_ratio : ℚ := if 0 < cnt.rh then (cnt.rw : ℚ) / (cnt.rh : ℚ) else 0
    let is_full := cnt.rx ≤ 10 ∧ cnt.ry ≤ 10 ∧ (w : ℤ) - 20 ≤ cnt.rw ∧ (h : ℤ) - 20 ≤ cnt.rh
    if ¬ is_full ∧ 3/10 < aspect_ratio ∧ aspect_ratio < 3 then
      some (cnt.area, cnt.rx, cnt.ry, cnt.rw, cnt.rh)
    else none
  else none

/-- ESTRATEGIA 2 (views.py 201-237): Otsu binarization, both polarities, a
close-then-open morphology pass, the same area / aspect / whole-image filter,
then the lexicographically largest surviving tuple (Python sorts the tuples
`(area, x, y, cw, ch)` with `reverse=True` and takes the first). -/
def strategy_otsu (ops : CVOps) (gray : RasterImage) : Option Cand :=
  let blurred := ops.gaussianBlur5 gray
  let thresh := ops.otsu blurred
  let res :=
    ((ops.findContours (ops.morphCloseOpen10 thresh)).filterMap
        (otsu_keep gray.width gray.height))
      ++ ((ops.findContours (ops.morphCloseOpen10 (ops.bitwiseNot thresh))).filterMap
        (otsu_keep gray.width gray.height))
  match sortDescBy otsuTupleGe res with
  | [] => none
  | (area, x, y, cw, ch) :: _ => some ⟨x, y, cw, ch, area⟩

/-- Loop body of `strategy_brightness` (views.py 267-276).  The accumulator is
`(best, best_area)`; note the source checks `area > best_area` together with
the band, and updates only when the aspect / whole-image filter also passes. -/
def brightness_step (w h : ℕ) (acc : Option Cand × ℚ) (cnt : Contour) : Option Cand × ℚ :=
  if ((w * h : ℕ) : ℚ) * (1/10) < cnt.area ∧ cnt.area < ((w * h : ℕ) : ℚ) * (49/50)
      ∧ acc.2 < cnt.area then
    let aspect_ratio : ℚ := if 0 < cnt.rh then (cnt.rw : ℚ) / (cnt.rh : ℚ) else 0
    let is_full := cnt.rx ≤ 10 ∧ cnt.ry ≤ 10 ∧ (w : ℤ) - 20 ≤ cnt.rw ∧ (h : ℤ) - 20 ≤ cnt.rh
    if ¬ is_full ∧ 3/10 < aspect_ratio ∧ aspect_ratio < 3 then
      (some ⟨cnt.rx, cnt.ry, cnt.rw, cnt.rh, cnt.area⟩, cnt.area)
    else acc
  else acc

/-- ESTRATEGIA 3 (views.py 240-278): threshold at mean brightness plus or
minus 20 depending on whether the background is dark or light, clean with
morphology, then keep the maximum-area contour passing the filters. -/
def strategy_brightness (ops : CVOps) (gray : RasterImage) : Option Cand :=
  let mean_brightness := ops.meanBrightness gray
  let thresh :=
    if mean_brightness < 128 then ops.threshBinary (mean_brightness + 20) gray
    else ops.threshBinaryInv (mean_brightness - 20) gray
  let cleaned := ops.morphCloseOpen7 thresh
  let contours := ops.findContours cleaned
  if contours.isEmpty then none
  else (contours.foldl (brightness_step gray.width gray.height) (none, 0)).1

/-- The `results` list of `detect_and_crop_invoice_improved` (views.py
281-296): each strategy contributes its candidate, tagged with the name the
source prints, in the order the source runs them. -/
def detectResults (ops : CVOps) (gray : RasterImage) : List (String × Cand) :=
  ((strategy_canny ops gray).toList.map (fun c => ("Canny", c)))
    ++ ((strategy_otsu ops gray).toList.map (fun c => ("Otsu", c)))
    ++ ((strategy_brightness ops gray).toList.map (fun c => ("Brillo", c)))

/-- Arbitration (views.py 304-306): `results.sort(key=lambda x: x[1][4],
reverse=True)` — a stable descending sort by area — and the first element
wins. -/
def selectWinner (results : List (String × Cand)) : Option (String × Cand) :=
  match sortDescBy (fun a b => decide (b.2.area ≤ a.2.area)) results with
  | [] => none
  | r :: _ => some r

/-- Margin expansion and clamping of the winning rectangle (views.py
311-317).  `int(cw * 0.03)` is modelled as `3 * cw / 100`: `cv2.boundingRect`
widths are non-negative, and for non-negative values Python float truncation
and this integer division agree (floor of 3cw/100). -/
def cropRegion (w h : ℕ) (c : Cand) : Region :=
  let margin_x := 3 * c.cw / 100
  let margin_y := 3 * c.ch / 100
  let x := max 0 (c.x - margin_x)
  let y := max 0 (c.y - margin_y)
  let cw := min ((w : ℤ) - x) (c.cw + 2 * margin_x)
  let ch := min ((h : ℤ) - y) (c.ch + 2 * margin_y)
  ⟨x, y, cw, ch⟩

/-- Crop of the winning candidate with margin expansion (views.py 310-322).
The source takes `w, h` from the gray copy of the image it crops; `cvtGray`
preserves the extent, so `img.width` and `img.height` are those values. -/
def cropWithMargin (img : RasterImage) (c : Cand) : RasterImage :=
  cropImg img (cropRegion img.width img.height c)

/-- `detect_and_crop_invoice_improved` (views.py 131-324): run the three
strategies on the gray copy, return the input unchanged when no strategy
found a candidate, otherwise crop the input at the margin-expanded winning
rectangle. -/
def detect_and_crop_invoice_improved (ops : CVOps) (image : RasterImage) : RasterImage :=
  let gray := cvtGray image
  match selectWinner (detectResults ops gray) with
  | none => image
  | some (_, c) => cropWithMargin image c

/-- `preprocess_image_aggressive` (views.py 97-128): gray conversion, median
blur 5, bilateral filter (9, 75, 75), 3x3 elliptic morphological closing,
CLAHE (clip 2.0, 8x8 tiles), and conversion back to a PIL RGB image by
replicating the gray channel. -/
def preprocess_image_aggressive (ops : CVOps) (image : RasterImage) : RasterImage :=
  let gray := cvtGray image
  let denoised := ops.medianBlur 5 gray
  let bilateral := ops.bilateral 9 75 denoised
  let morph := ops.morphClose3 bilateral
  let equalized := ops.clahe 2 8 morph
  gray2rgb equalized

/-- Steps 1 and 2 of the fixed-default endpoint `process_invoice_image`
(views.py 43-47): the denoised/equalized copy is produced first and the
detection-and-crop stage is applied to that copy. -/
def process_invoice_crop_stage (ops : CVOps) (image : RasterImage) : RasterImage :=
  detect_and_crop_invoice_improved ops (preprocess_image_aggressive ops image)

/-- The parameter record of the parametric pipeline, with exactly the keys of
the `params` dict of `process_with_params` (views.py 464-477).  Integer
fields are Python ints (ℤ); `clahe_clip` and `sharpness` are floats, modelled
as ℚ. -/
structure Params where
  median_blur : ℤ
  bilateral_d : ℤ
  bilateral_sigma : ℤ
  clahe_clip : ℚ
  clahe_grid : ℤ
  adaptive_block : ℤ
  adaptive_c : ℤ
  gaussian_blur : ℤ
  morph_open : ℤ
  morph_close : ℤ
  sharpness : ℚ
  skip_crop : Bool

/-- First in-place adjustment of `process_with_custom_params` (views.py
525-526): an even `median_blur` is incremented.  Python `% 2` on ints agrees
with `Int.emod` for the modulus 2 (both yield 0 or 1). -/
def adjust_median (p : Params) : Params :=
  if p.median_blur % 2 = 0 then { p with median_blur := p.median_blur + 1 } else p

/-- Second adjustment (views.py 528-529): a positive even `gaussian_blur` is
incremented. -/
def adjust_gaussian (p : Params) : Params :=
  if 0 < p.gaussian_blur ∧ p.gaussian_blur % 2 = 0 then
    { p with gaussian_blur := p.gaussian_blur + 1 }
  else p

/-- Third adjustment (views.py 531-532): an even `adaptive_block` is
incremented. -/
def adjust_adaptive (p : Params) : Params :=
  if p.adaptive_block % 2 = 0 then { p with adaptive_block := p.adaptive_block + 1 } else p

/-- The in-place parameter adjustment at the top of
`process_with_custom_params` (views.py 524-532), in source order. -/
def normalizeParams (p : Params) : Params :=
  adjust_adaptive (adjust_gaussian (adjust_median p))

/-- The fixed "optimal" parameter set of `process_invoice_optimal`
(views.py 620-633); `skip_crop` comes from the request. -/
def optimal_params (skip : Bool) : Params :=
  { median_blur := 1, bilateral_d := 14, bilateral_sigma := 100, clahe_clip := 0,
    clahe_grid := 4, adaptive_block := 17, adaptive_c := 2, gaussian_blur := 6,
    morph_open := 0, morph_close := 0, sharpness := 0, skip_crop := skip }

/-- How a pipeline invocation can fail.  The source contains no parameter
validation of its own; the failure points of `process_with_custom_params`
are the underlying library calls whose preconditions the code leaves
unchecked: `cv2.createCLAHE(...).apply` (requires a positive tile grid,
reached only when `clahe_clip > 0`) and `cv2.adaptiveThreshold` (requires an
odd block size greater than 1).  Both raise generic library errors (caught
by the endpoint as a 500).  `invalidParameter` is included to express the
error class the specification describes; no code path constructs it. -/
inductive PipeError where
  | invalidParameter (msg : String)
  | libraryError (msg : String)

/-- Preprocessing step 1 of `process_with_custom_params` (views.py 547-548):
median blur only when `median_blur > 1`. -/
def median_stage (ops : CVOps) (p : Params) (g : RasterImage) : RasterImage :=
  if 1 < p.median_blur then ops.medianBlur p.median_blur g else g

/-- Bilateral filter step (views.py 550-553): only when `bilateral_d > 0`. -/
def bilateral_stage (ops : CVOps) (p : Params) (g : RasterImage) : RasterImage :=
  if 0 < p.bilateral_d then ops.bilateral p.bilateral_d p.bilateral_sigma g else g

/-- CLAHE step (views.py 555-558): only when `clahe_clip > 0`.  The tile
grid size is passed unchecked to `cv2.createCLAHE(...).apply`, which needs a
positive grid (a zero grid divides by zero, a negative one fails an OpenCV
assertion); that library failure is the error case here. -/
def clahe_stage (ops : CVOps) (p : Params) (g : RasterImage) :
    Except PipeError RasterImage :=
  if 0 < p.clahe_clip then
    if 0 < p.clahe_grid then .ok (ops.clahe p.clahe_clip p.clahe_grid g)
    else .error (.libraryError "createCLAHE: tileGridSize must be positive")
  else .ok g

/-- Gaussian blur step (views.py 561-562): only when `gaussian_blur > 0`. -/
def gaussian_stage (ops : CVOps) (p : Params) (g : RasterImage) : RasterImage :=
  if 0 < p.gaussian_blur then ops.gaussianBlurK p.gaussian_blur g else g

/-- Sharpening step (views.py 565-569): the PIL sharpness enhancement runs
whenever `sharpness != 1.0`; the factor 1.0 is the identity of
`ImageEnhance.Sharpness.enhance`, so only that value skips the stage. -/
def sharpen_stage (ops : CVOps) (p : Params) (g : RasterImage) : RasterImage :=
  if p.sharpness ≠ 1 then ops.sharpen p.sharpness g else g

/-- Adaptive thresholding step (views.py 572-578).  `cv2.adaptiveThreshold`
requires an odd block size greater than 1 and raises a library error
otherwise; the repository code passes `adaptive_block` through unchecked. -/
def adaptive_stage (ops : CVOps) (p : Params) (g : RasterImage) : Except PipeError RasterImage :=
  if p.adaptive_block % 2 = 1 ∧ 1 < p.adaptive_block then
    .ok (ops.adaptiveThreshold p.adaptive_block p.adaptive_c g)
  else .error (.libraryError "adaptiveThreshold: blockSize must be odd and greater than 1")

/-- Morphological opening step (views.py 581-584): only when `morph_open > 0`. -/
def morph_open_stage (ops : CVOps) (p : Params) (g : RasterImage) : RasterImage :=
  if 0 < p.morph_open then ops.morphOpen p.morph_open g else g

/-- Morphological closing step (views.py 586-589): only when `morph_close > 0`. -/
def morph_close_stage (ops : CVOps) (p : Params) (g : RasterImage) : RasterImage :=
  if 0 < p.morph_close then ops.morphClose p.morph_close g else g

/-- The enhancement chain of `process_with_custom_params` after the optional
crop (views.py 539-593): gray conversion, then the guarded stages in source
order. -/
def enhance_after_crop (ops : CVOps) (p : Params) (image : RasterImage) :
    Except PipeError RasterImage :=
  let g0 := cvtGray image
  let g1 := median_stage ops p g0
  let g2 := bilateral_stage ops p g1
  (clahe_stage ops p g2).bind (fun g3 =>
    let g4 := gaussian_stage ops p g3
    let g5 := sharpen_stage ops p g4
    (adaptive_stage ops p g5).map (fun b =>
      morph_close_stage ops p (morph_open_stage ops p b)))

/-- `process_with_custom_params` (views.py 520-593).  The Python function
mutates the caller's `params` dict in place (the odd-size adjustment) and
returns only the image; the mutation is modelled by returning the adjusted
record alongside the image. -/
def process_with_custom_params (ops : CVOps) (image : RasterImage) (params : Params) :
    Except PipeError (RasterImage × Params) :=
  let p := normalizeParams params
  let image1 := if p.skip_crop then image else detect_and_crop_invoice_improved ops image
  (enhance_after_crop ops p image1).map (fun b => (b, p))

/-- The image `process_with_custom_params` returns (its Python return
value). -/
def process_result_image (ops : CVOps) (image : RasterImage) (params : Params) :
    Except PipeError RasterImage :=
  (process_with_custom_params ops image params).map Prod.fst

/-- The `params` object the endpoint `process_with_params` echoes in its
base64 JSON response (views.py 499-505): the same dict the callee mutated in
place. -/
def process_with_params_echo (ops : CVOps) (image : RasterImage) (params : Params) :
    Except PipeError Params :=
  (process_with_custom_params ops image params).map Prod.snd

/-- Whether an Except value is a success. -/
def exceptIsOk {α : Type} : Except PipeError α → Bool
  | .ok _ => true
  | .error _ => false

/-- Clamp an integer to the byte range, as PIL does when storing pixels. -/
def clamp255 (n : ℤ) : ℕ := (max 0 (min 255 n)).toNat

/-- Model of `PIL.ImageFilter.SMOOTH` on an 8-bit grayscale image: the 3x3
convolution kernel (1 1 1; 1 5 1; 1 1 1) with divisor 13, rounded to nearest
(PIL rounds half away from zero; all values here are non-negative), with the
one-pixel border copied from the source as PIL's 3x3 filter does. -/
def smooth3 (g : RasterImage) : RasterImage :=
  { width := g.width, height := g.height, channels := g.channels,
    pix := fun c x y =>
      if 1 ≤ x ∧ x + 1 < g.width ∧ 1 ≤ y ∧ y + 1 < g.height then
        clamp255 ⌊((g.pix c (x-1) (y-1) + g.pix c x (y-1) + g.pix c (x+1) (y-1)
          + g.pix c (x-1) y + 5 * g.pix c x y + g.pix c (x+1) y
          + g.pix c (x-1) (y+1) + g.pix c x (y+1) + g.pix c (x+1) (y+1) : ℕ) / (13 : ℚ) + 1/2)⌋
      else g.pix c x y }

/-- Model of `PIL.Image.blend(a, b, t)`: per-pixel `a + t * (b - a)`, rounded
and clamped to the byte range. -/
def pilBlend (a b : RasterImage) (t : ℚ) : RasterImage :=
  { width := a.width, height := a.height, channels := a.channels,
    pix := fun c x y =>
      clamp255 ⌊((a.pix c x y : ℚ) + t * ((b.pix c x y : ℚ) - (a.pix c x y : ℚ)) + 1/2)⌋ }

/-- Model of `PIL.ImageEnhance.Sharpness(img).enhance(t)`: blend between the
smoothed degenerate image (factor 0) and the original (factor 1). -/
def pilSharpen (t : ℚ) (g : RasterImage) : RasterImage :=
  pilBlend (smooth3 g) g t

/-- A concrete instantiation of the abstract primitives used to evaluate the
embedding on concrete inputs: every image transform is the identity, the mean
brightness is 0, and contour extraction always reports the one contour
`ceContour`.  (Any instantiation of `CVOps` is a legal environment for the
theorems quantified over `ops`.) -/
def ceContour : Contour :=
  { area := 2000, rx := 20, ry := 20, rw := 30, rh := 30, approxLen := 4 }

def ceOps : CVOps :=
  { medianBlur := fun _ g => g, bilateral := fun _ _ g => g, clahe := fun _ _ g => g,
    morphClose3 := fun g => g, gaussianBlur5 := fun g => g, gaussianBlurK := fun _ g => g,
    canny := fun g => g, dilate5x2 := fun g => g, otsu := fun g => g,
    bitwiseNot := fun g => g, morphCloseOpen10 := fun g => g,
    threshBinary := fun _ g => g, threshBinaryInv := fun _ g => g,
    morphCloseOpen7 := fun g => g, meanBrightness := fun _ => 0,
    findContours := fun _ => [ceContour], sharpen := fun _ g => g,
    adaptiveThreshold := fun _ _ g => g, morphOpen := fun _ g => g,
    morphClose := fun _ g => g,
    medianBlur_dims := fun _ _ => ⟨rfl, rfl⟩, bilateral_dims := fun _ _ _ => ⟨rfl, rfl⟩,
    morphClose3_dims := fun _ => ⟨rfl, rfl⟩, clahe_dims := fun _ _ _ => ⟨rfl, rfl⟩ }

/-- A second concrete instantiation: no contours are ever found (each
strategy returns no candidate), and the sharpening primitive is the faithful
PIL sharpness model `pilSharpen`; every other transform is the identity. -/
def pilOps : CVOps :=
  { medianBlur := fun _ g => g, bilateral := fun _ _ g => g, clahe := fun _ _ g => g,
    morphClose3 := fun g => g, gaussianBlur5 := fun g => g, gaussianBlurK := fun _ g => g,
    canny := fun g => g, dilate5x2 := fun g => g, otsu := fun g => g,
    bitwiseNot := fun g => g, morphCloseOpen10 := fun g => g,
    threshBinary := fun _ g => g, threshBinaryInv := fun _ g => g,
    morphCloseOpen7 := fun g => g, meanBrightness := fun _ => 0,
    findContours := fun _ => [], sharpen := pilSharpen,
    adaptiveThreshold := fun _ _ g => g, morphOpen := fun _ g => g,
    morphClose := fun _ g => g,
    medianBlur_dims := fun _ _ => ⟨rfl, rfl⟩, bilateral_dims := fun _ _ _ => ⟨rfl, rfl⟩,
    morphClose3_dims := fun _ => ⟨rfl, rfl⟩, clahe_dims := fun _ _ _ => ⟨rfl, rfl⟩ }

/-- A concrete 100x100 RGB input: every pixel is the saturated red
(200, 0, 0), so the red channel differs from the other channels
everywhere. -/
def ceImg : RasterImage :=
  { width := 100, height := 100, channels := 3,
    pix := fun c _ _ => if c = 0 then 200 else 0 }

/-- The candidate the strategies produce from `ceContour` on a 100x100
image. -/
def ceCand : Cand := { x := 20, y := 20, cw := 30, ch := 30, area := 2000 }

/-- A 3x3 single-channel image whose center pixel is 13 on a 0 background:
its smoothed center is (5 * 13) / 13 = 5, exactly. -/
def g0 : RasterImage :=
  { width := 3, height := 3, channels := 1,
    pix := fun _ x y => if x = 1 ∧ y = 1 then 13 else 0 }

/-- A concrete parameter record with a non-positive required dimension: the
optimal set with `median_blur := -2` (and the crop skipped). -/
def cNeg : Params := { optimal_params true with median_blur := -2 }

/-! ## Helper lemmas -/

theorem cvtGray_width (img : RasterImage) : (cvtGray img).width = img.width := by
  unfold cvtGray; split <;> rfl

theorem cvtGray_height (img : RasterImage) : (cvtGray img).height = img.height := by
  unfold cvtGray; split <;> rfl

theorem exceptIsOk_map {α β : Type} (f : α → β) (e : Except PipeError α) :
    exceptIsOk (e.map f) = exceptIsOk e := by
  cases e <;> rfl

/-- Two parameter records with equal fields are equal. -/
theorem params_ext (a b : Params)
    (h1 : a.median_blur = b.median_blur) (h2 : a.bilateral_d = b.bilateral_d)
    (h3 : a.bilateral_sigma = b.bilateral_sigma) (h4 : a.clahe_clip = b.clahe_clip)
    (h5 : a.clahe_grid = b.clahe_grid) (h6 : a.adaptive_block = b.adaptive_block)
    (h7 : a.adaptive_c = b.adaptive_c) (h8 : a.gaussian_blur = b.gaussian_blur)
    (h9 : a.morph_open = b.morph_open) (h10 : a.morph_close = b.morph_close)
    (h11 : a.sharpness = b.sharpness) (h12 : a.skip_crop = b.skip_crop) : a = b := by
  cases a; cases b; simp_all

theorem adjust_median_eq (p : Params) :
    adjust_median p =
      { p with median_blur := if p.median_blur % 2 = 0 then p.median_blur + 1
                              else p.median_blur } := by
  unfold adjust_median
  split <;> rfl

theorem adjust_gaussian_eq (p : Params) :
    adjust_gaussian p =
      { p with gaussian_blur :=
          if 0 < p.gaussian_blur ∧ p.gaussian_blur % 2 = 0 then p.gaussian_blur + 1
          else p.gaussian_blur } := by
  unfold adjust_gaussian
  split <;> rfl

theorem adjust_adaptive_eq (p : Params) :
    adjust_adaptive p =
      { p with adaptive_block := if p.adaptive_block % 2 = 0 then p.adaptive_block + 1
                                 else p.adaptive_block } := by
  unfold adjust_adaptive
  split <;> rfl

/-- Closed form of the odd-size adjustment: only the three odd-size fields
change, each by its own guard. -/
theorem normalizeParams_eq (p : Params) :
    normalizeParams p =
      { p with
        median_blur := if p.median_blur % 2 = 0 then p.median_blur + 1 else p.median_blur,
        gaussian_blur :=
          if 0 < p.gaussian_blur ∧ p.gaussian_blur % 2 = 0 then p.gaussian_blur + 1
          else p.gaussian_blur,
        adaptive_block :=
          if p.adaptive_block % 2 = 0 then p.adaptive_block + 1 else p.adaptive_block } := by
  simp only [normalizeParams, adjust_median_eq, adjust_gaussian_eq, adjust_adaptive_eq]

theorem normalizeParams_skip (p : Params) :
    (normalizeParams p).skip_crop = p.skip_crop := by
  simp [normalizeParams_eq]

/-- The adjusted adaptive block size is always odd. -/
theorem normalizeParams_adaptive_odd (p : Params) :
    (normalizeParams p).adaptive_block % 2 = 1 := by
  simp only [normalizeParams_eq]
  split_ifs with h <;> omega

theorem normalizeParams_set_skip (p : Params) (b : Bool) :
    normalizeParams { p with skip_crop := b } = { normalizeParams p with skip_crop := b } := by
  simp [normalizeParams_eq]

/-! ## Claim C3 -/

/-- Claim C3: for every EnhancementParameters record with an even
medianBlurSize, an even adaptiveBlockSize, or a non-zero even (positive)
gaussianBlurSize, the effective value used by the parametric pipeline for
that field is exactly value+1; odd supplied values are used unchanged, and a
zero gaussianBlurSize stays zero. -/
theorem c3_odd_size_normalization (p : Params) :
    (p.median_blur % 2 = 0 → (normalizeParams p).median_blur = p.median_blur + 1) ∧
    (p.median_blur % 2 ≠ 0 → (normalizeParams p).median_blur = p.median_blur) ∧
    (p.adaptive_block % 2 = 0 → (normalizeParams p).adaptive_block = p.adaptive_block + 1) ∧
    (p.adaptive_block % 2 ≠ 0 → (normalizeParams p).adaptive_block = p.adaptive_block) ∧
    (p.gaussian_blur = 0 → (normalizeParams p).gaussian_blur = 0) ∧
    (0 < p.gaussian_blur → p.gaussian_blur % 2 = 0 →
      (normalizeParams p).gaussian_blur = p.gaussian_blur + 1) ∧
    (p.gaussian_blur % 2 ≠ 0 → (normalizeParams p).gaussian_blur = p.gaussian_blur) := by
  simp only [normalizeParams_eq]
  refine ⟨?_, ?_, ?_, ?_, ?_, ?_, ?_⟩ <;> intros <;> split_ifs <;> simp_all

/-- Witness for C3 at a concrete record: median 4 becomes 5, adaptive 16
becomes 17, gaussian 6 becomes 7. -/
theorem c3_odd_size_normalization_witness :
    (normalizeParams { optimal_params false with
        median_blur := 4, adaptive_block := 16, gaussian_blur := 6 }).median_blur = 4 + 1 ∧
    (normalizeParams { optimal_params false with
        median_blur := 4, adaptive_block := 16, gaussian_blur := 6 }).adaptive_block = 16 + 1 ∧
    (normalizeParams { optimal_params false with
        median_blur := 4, adaptive_block := 16, gaussian_blur := 6 }).gaussian_blur = 6 + 1 :=
  ⟨(c3_odd_size_normalization _).1 (by decide),
   (c3_odd_size_normalization _).2.2.1 (by decide),
   (c3_odd_size_normalization _).2.2.2.2.2.1 (by decide) (by decide)⟩

/-! ## Claim C10 -/

/-- Claim C10: the callee adjusts the caller-supplied record in place (the
record coming back from the call is the adjusted one), exactly the three
odd-size fields can change, every other field is unchanged, and the
parametric endpoint echoes the adjusted record in its response. -/
theorem c10_in_place_mutation (ops : CVOps) (image : RasterImage) (p : Params) :
    ((p.median_blur % 2 = 0 → (normalizeParams p).median_blur = p.median_blur + 1) ∧
     (p.adaptive_block % 2 = 0 → (normalizeParams p).adaptive_block = p.adaptive_block + 1) ∧
     (0 < p.gaussian_blur ∧ p.gaussian_blur % 2 = 0 →
       (normalizeParams p).gaussian_blur = p.gaussian_blur + 1)) ∧
    ((normalizeParams p).bilateral_d = p.bilateral_d ∧
     (normalizeParams p).bilateral_sigma = p.bilateral_sigma ∧
     (normalizeParams p).clahe_clip = p.clahe_clip ∧
     (normalizeParams p).clahe_grid = p.clahe_grid ∧
     (normalizeParams p).adaptive_c = p.adaptive_c ∧
     (normalizeParams p).morph_open = p.morph_open ∧
     (normalizeParams p).morph_close = p.morph_close ∧
     (normalizeParams p).sharpness = p.sharpness ∧
     (normalizeParams p).skip_crop = p.skip_crop) ∧
    (∀ b q, process_with_custom_params ops image p = .ok (b, q) → q = normalizeParams p) ∧
    (∀ q, process_with_params_echo ops image p = .ok q → q = normalizeParams p) := by
  refine ⟨⟨?_, ?_, ?_⟩, ?_, ?_, ?_⟩
  · intro h; simp [normalizeParams_eq, h]
  · intro h; simp [normalizeParams_eq, h]
  · intro h; simp [normalizeParams_eq, h]
  · simp [normalizeParams_eq]
  · intro b q h
    simp only [process_with_custom_params] at h
    cases he : enhance_after_crop ops (normalizeParams p)
        (if (normalizeParams p).skip_crop = true then image
         else detect_and_crop_invoice_improved ops image) <;>
      rw [he] at h <;> simp_all [Except.map]
  · intro q h
    simp only [process_with_params_echo, process_with_custom_params] at h
    cases he : enhance_after_crop ops (normalizeParams p)
        (if (normalizeParams p).skip_crop = true then image
         else detect_and_crop_invoice_improved ops image) <;>
      rw [he] at h <;> simp_all [Except.map]

/-- Witness for C10 at a concrete record (median 4, gaussian 6,
adaptive 16). -/
theorem c10_in_place_mutation_witness :
    (normalizeParams { optimal_params false with
        median_blur := 4, adaptive_block := 16 }).median_blur = 4 + 1 ∧
    (normalizeParams { optimal_params false with
        median_blur := 4, adaptive_block := 16 }).sharpness =
      ({ optimal_params false with median_blur := 4, adaptive_block := 16 } : Params).sharpness :=
  ⟨(c10_in_place_mutation ceOps ceImg _).1.1 (by decide),
   (c10_in_place_mutation ceOps ceImg _).2.1.2.2.2.2.2.2.2.1⟩

/-! ## Claim C4 -/

theorem normalizeParams_clahe_clip (p : Params) :
    (normalizeParams p).clahe_clip = p.clahe_clip := by
  simp [normalizeParams_eq]

theorem normalizeParams_clahe_grid (p : Params) :
    (normalizeParams p).clahe_grid = p.clahe_grid := by
  simp [normalizeParams_eq]

/-- A positive clip limit with a non-positive tile grid reaches the CLAHE
library call and fails there, aborting the chain. -/
theorem enhance_after_crop_eq_error (ops : CVOps) (p : Params) (image : RasterImage)
    (h1 : 0 < p.clahe_clip) (h2 : p.clahe_grid ≤ 0) :
    enhance_after_crop ops p image =
      Except.error (PipeError.libraryError "createCLAHE: tileGridSize must be positive") := by
  simp only [enhance_after_crop, clahe_stage]
  rw [if_pos h1, if_neg (by omega)]
  rfl

/-- The enhancement chain succeeds exactly when the CLAHE call is valid or
skipped and the adaptive block size satisfies the library precondition. -/
theorem enhance_after_crop_isOk (ops : CVOps) (p : Params) (image : RasterImage) :
    exceptIsOk (enhance_after_crop ops p image) = true ↔
      ((0 < p.clahe_clip → 0 < p.clahe_grid) ∧
        (p.adaptive_block % 2 = 1 ∧ 1 < p.adaptive_block)) := by
  simp only [enhance_after_crop, clahe_stage, adaptive_stage]
  by_cases h1 : 0 < p.clahe_clip <;>
    by_cases h2 : 0 < p.clahe_grid <;>
    by_cases h3 : p.adaptive_block % 2 = 1 ∧ 1 < p.adaptive_block <;>
    simp [exceptIsOk, Except.bind, Except.map, h1, h2, h3]

/-- Claim C4 (amended): the repository performs no parameter validation and
no code path produces an InvalidParameterError.  A non-positive size for the
optional median, bilateral, gaussian and morphology stages, and a
non-positive clahe_clip, silently disable those stages.  The two sizes that
reach the library unchecked are the CLAHE tile grid (used only when
clahe_clip > 0) and the adaptive block size: a positive clahe_clip with a
non-positive clahe_grid makes the invocation fail inside the library (a
generic library error, not a parameter error), and the invocation succeeds
exactly when the CLAHE call is valid or skipped and the adjusted adaptive
block size (always odd) is greater than 1. -/
theorem c4_nonpositive_dims_silently_skip (ops : CVOps) (image g : RasterImage) (p : Params) :
    (p.median_blur ≤ 1 → median_stage ops p g = g) ∧
    (p.bilateral_d ≤ 0 → bilateral_stage ops p g = g) ∧
    (p.clahe_clip ≤ 0 → clahe_stage ops p g = Except.ok g) ∧
    (p.gaussian_blur ≤ 0 → gaussian_stage ops p g = g) ∧
    (p.morph_open ≤ 0 → morph_open_stage ops p g = g) ∧
    (p.morph_close ≤ 0 → morph_close_stage ops p g = g) ∧
    (∀ msg, process_with_custom_params ops image p ≠
      Except.error (PipeError.invalidParameter msg)) ∧
    (0 < p.clahe_clip → p.clahe_grid ≤ 0 →
      process_with_custom_params ops image p =
        Except.error (PipeError.libraryError "createCLAHE: tileGridSize must be positive")) ∧
    (exceptIsOk (process_with_custom_params ops image p) = true ↔
      ((0 < p.clahe_clip → 0 < p.clahe_grid) ∧ 1 < (normalizeParams p).adaptive_block)) := by
  refine ⟨?_, ?_, ?_, ?_, ?_, ?_, ?_, ?_, ?_⟩
  · intro h; unfold median_stage; rw [if_neg (by omega)]
  · intro h; unfold bilateral_stage; rw [if_neg (by omega)]
  · intro h; unfold clahe_stage; rw [if_neg (by simpa using h)]
  · intro h; unfold gaussian_stage; rw [if_neg (by omega)]
  · intro h; unfold morph_open_stage; rw [if_neg (by omega)]
  · intro h; unfold morph_close_stage; rw [if_neg (by omega)]
  · intro msg
    simp only [process_with_custom_params, enhance_after_crop, clahe_stage, adaptive_stage]
    by_cases h1 : 0 < (normalizeParams p).clahe_clip <;>
      by_cases h2 : 0 < (normalizeParams p).clahe_grid <;>
      by_cases h3 : (normalizeParams p).adaptive_block % 2 = 1 ∧
        1 < (normalizeParams p).adaptive_block <;>
      simp [Except.bind, Except.map, h1, h2, h3]
  · intro h1 h2
    simp only [process_with_custom_params]
    rw [enhance_after_crop_eq_error ops (normalizeParams p) _
      (by rwa [normalizeParams_clahe_clip]) (by rwa [normalizeParams_clahe_grid])]
    rfl
  · have hodd := normalizeParams_adaptive_odd p
    simp only [process_with_custom_params, exceptIsOk_map]
    rw [enhance_after_crop_isOk, normalizeParams_clahe_clip, normalizeParams_clahe_grid]
    constructor
    · rintro ⟨ha, hb⟩; exact ⟨ha, hb.2⟩
    · rintro ⟨ha, hb⟩; exact ⟨ha, hodd, hb⟩

/-- Counterexample for C4 as stated: the record `cNeg` has the non-positive
required dimension `median_blur = -2`, yet the pipeline raises no error at
all — the adjustment turns it into -1, the median stage is silently skipped,
and the invocation succeeds. -/
theorem c4_counterexample :
    cNeg.median_blur = -2 ∧
    (normalizeParams cNeg).median_blur = -1 ∧
    median_stage pilOps (normalizeParams cNeg) (cvtGray ceImg) = cvtGray ceImg ∧
    exceptIsOk (process_with_custom_params pilOps ceImg cNeg) = true := by
  refine ⟨rfl, ?_, ?_, ?_⟩
  · norm_num [normalizeParams_eq, cNeg, optimal_params]
  · unfold median_stage
    rw [if_neg (by norm_num [normalizeParams_eq, cNeg, optimal_params])]
  · simp only [process_with_custom_params, exceptIsOk_map]
    rw [enhance_after_crop_isOk]
    refine ⟨?_, ?_, ?_⟩
    · intro h
      exact absurd h (by norm_num [normalizeParams_eq, cNeg, optimal_params])
    · norm_num [normalizeParams_eq, cNeg, optimal_params]
    · norm_num [normalizeParams_eq, cNeg, optimal_params]

/-! ## Claim C6 -/

/-- Claim C6: for a winning rectangle valid within the image bounds, the
margin-expanded and clamped crop region is non-negative, at least as large as
the pre-margin rectangle, at most the image extent, entirely inside the
bounds, and the crop operation is total on it (the resulting image has
exactly the region's extent). -/
theorem c6_margin_expansion_bounds (W H : ℕ) (c : Cand) (img : RasterImage)
    (hx : 0 ≤ c.x) (hy : 0 ≤ c.y) (hxw : c.x + c.cw ≤ (W : ℤ)) (hyh : c.y + c.ch ≤ (H : ℤ))
    (hw : 0 < c.cw) (hh : 0 < c.ch) :
    0 ≤ (cropRegion W H c).x ∧ 0 ≤ (cropRegion W H c).y ∧
    c.cw ≤ (cropRegion W H c).w ∧ c.ch ≤ (cropRegion W H c).h ∧
    (cropRegion W H c).w ≤ (W : ℤ) ∧ (cropRegion W H c).h ≤ (H : ℤ) ∧
    (cropRegion W H c).x + (cropRegion W H c).w ≤ (W : ℤ) ∧
    (cropRegion W H c).y + (cropRegion W H c).h ≤ (H : ℤ) ∧
    0 < (cropRegion W H c).w ∧ 0 < (cropRegion W H c).h ∧
    (cropImg img (cropRegion W H c)).width = (cropRegion W H c).w.toNat ∧
    (cropImg img (cropRegion W H c)).height = (cropRegion W H c).h.toNat := by
  have hmx : 0 ≤ 3 * c.cw / 100 := Int.ediv_nonneg (by omega) (by omega)
  have hmy : 0 ≤ 3 * c.ch / 100 := Int.ediv_nonneg (by omega) (by omega)
  refine ⟨?_, ?_, ?_, ?_, ?_, ?_, ?_, ?_, ?_, ?_, rfl, rfl⟩ <;>
    (simp only [cropRegion]; omega)

/-- Witness for C6 at the concrete rectangle (20, 20, 30, 30) in a 100x100
image. -/
theorem c6_margin_expansion_bounds_witness :
    0 ≤ (cropRegion 100 100 ceCand).x ∧ 0 ≤ (cropRegion 100 100 ceCand).y ∧
    ceCand.cw ≤ (cropRegion 100 100 ceCand).w ∧ ceCand.ch ≤ (cropRegion 100 100 ceCand).h ∧
    (cropRegion 100 100 ceCand).w ≤ (100 : ℤ) ∧ (cropRegion 100 100 ceCand).h ≤ (100 : ℤ) ∧
    (cropRegion 100 100 ceCand).x + (cropRegion 100 100 ceCand).w ≤ (100 : ℤ) ∧
    (cropRegion 100 100 ceCand).y + (cropRegion 100 100 ceCand).h ≤ (100 : ℤ) ∧
    0 < (cropRegion 100 100 ceCand).w ∧ 0 < (cropRegion 100 100 ceCand).h ∧
    (cropImg ceImg (cropRegion 100 100 ceCand)).width = (cropRegion 100 100 ceCand).w.toNat ∧
    (cropImg ceImg (cropRegion 100 100 ceCand)).height = (cropRegion 100 100 ceCand).h.toNat :=
  c6_margin_expansion_bounds 100 100 ceCand ceImg (by decide) (by decide) (by decide)
    (by decide) (by decide) (by decide)

/-! ## Claim C8 -/

/-- Claim C8 (amended): the denoise / normalization stage preserves width and
height, but it returns a 3-channel image (the gray content replicated into
identical channels by the final GRAY2RGB conversion), not a single-channel
one. -/
theorem c8_preprocess_shape (ops : CVOps) (image : RasterImage)
    (hw : 0 < image.width) (hh : 0 < image.height) :
    (preprocess_image_aggressive ops image).width = image.width ∧
    (preprocess_image_aggressive ops image).height = image.height ∧
    (preprocess_image_aggressive ops image).channels = 3 ∧
    (∀ c x y, (preprocess_image_aggressive ops image).pix c x y
        = (preprocess_image_aggressive ops image).pix 0 x y) := by
  have h1 := ops.medianBlur_dims 5 (cvtGray image)
  have h2 := ops.bilateral_dims 9 75 (ops.medianBlur 5 (cvtGray image))
  have h3 := ops.morphClose3_dims (ops.bilateral 9 75 (ops.medianBlur 5 (cvtGray image)))
  have h4 := ops.clahe_dims 2 8
    (ops.morphClose3 (ops.bilateral 9 75 (ops.medianBlur 5 (cvtGray image))))
  refine ⟨?_, ?_, rfl, fun c x y => rfl⟩ <;>
    simp only [preprocess_image_aggressive, gray2rgb] <;>
    simp [h1.1, h1.2, h2.1, h2.2, h3.1, h3.2, h4.1, h4.2, cvtGray_width, cvtGray_height]

/-- Witness for C8 at the concrete 100x100 input. -/
theorem c8_preprocess_shape_witness :
    (preprocess_image_aggressive ceOps ceImg).width = ceImg.width ∧
    (preprocess_image_aggressive ceOps ceImg).height = ceImg.height ∧
    (preprocess_image_aggressive ceOps ceImg).channels = 3 ∧
    (∀ c x y, (preprocess_image_aggressive ceOps ceImg).pix c x y
        = (preprocess_image_aggressive ceOps ceImg).pix 0 x y) :=
  c8_preprocess_shape ceOps ceImg (by decide) (by decide)

/-- Counterexample for C8 as stated: the stage output has 3 channels, not
1. -/
theorem c8_counterexample :
    (preprocess_image_aggressive ceOps ceImg).channels = 3 ∧
    (preprocess_image_aggressive ceOps ceImg).channels ≠ 1 :=
  ⟨rfl, by decide⟩

/-! ## Claim C9 -/

/-- Claim C9 (amended): the sharpening stage is skipped exactly for
sharpnessFactor 1.0 (the identity factor of the PIL enhancement); under the
optimal parameter set, sharpness = 0, the stage runs and applies the
enhancement with factor 0 (full smoothing). -/
theorem c9_sharpen_stage_runs (ops : CVOps) (g : RasterImage) (b : Bool) (q : Params) :
    sharpen_stage ops (optimal_params b) g = ops.sharpen 0 g ∧
    (q.sharpness = 1 → sharpen_stage ops q g = g) := by
  constructor
  · simp [sharpen_stage, optimal_params]
  · intro h; simp [sharpen_stage, h]

/-- Counterexample for C9 as stated: with the optimal parameters (sharpness
0) and the faithful PIL sharpness model, the stage changes the center pixel
of `g0` from 13 to 5 — it is not a no-op. -/
theorem c9_counterexample :
    (optimal_params false).sharpness = 0 ∧
    g0.pix 0 1 1 = 13 ∧
    (sharpen_stage pilOps (optimal_params false) g0).pix 0 1 1 = 5 ∧
    (sharpen_stage pilOps (optimal_params false) g0).pix 0 1 1 ≠ g0.pix 0 1 1 := by
  have hg : g0.pix 0 1 1 = 13 := by decide
  have h0 : sharpen_stage pilOps (optimal_params false) g0 = pilSharpen 0 g0 := by
    unfold sharpen_stage
    rw [if_pos (by norm_num [optimal_params])]
    rfl
  have hsm : (smooth3 g0).pix 0 1 1 = 5 := by
    norm_num [smooth3, g0, clamp255]
    all_goals decide
  have hs : (sharpen_stage pilOps (optimal_params false) g0).pix 0 1 1 = 5 := by
    rw [h0]
    norm_num [pilSharpen, pilBlend, hsm, hg, clamp255]
    all_goals decide
  exact ⟨rfl, hg, hs, by rw [hs, hg]; decide⟩

/-! ## Sorting lemmas -/

theorem mem_insertDescBy {α : Type} (ge : α → α → Bool) (x a : α) (l : List α) :
    a ∈ insertDescBy ge x l ↔ a = x ∨ a ∈ l := by
  induction l with
  | nil => simp [insertDescBy]
  | cons y ys ih =>
    simp only [insertDescBy]
    split
    · simp [List.mem_cons]
    · simp only [List.mem_cons, ih]
      tauto

theorem mem_sortDescBy {α : Type} (ge : α → α → Bool) (a : α) (l : List α) :
    a ∈ sortDescBy ge l ↔ a ∈ l := by
  induction l with
  | nil => simp [sortDescBy]
  | cons x xs ih =>
    simp only [sortDescBy, mem_insertDescBy, List.mem_cons, ih]

theorem pairwise_insertDescBy {α : Type} (ge : α → α → Bool) (key : α → ℚ)
    (hge : ∀ a b, ge a b = true ↔ key b ≤ key a) (x : α) (l : List α)
    (h : l.Pairwise (fun a b => key b ≤ key a)) :
    (insertDescBy ge x l).Pairwise (fun a b => key b ≤ key a) := by
  induction l with
  | nil => simp [insertDescBy]
  | cons y ys ih =>
    rcases List.pairwise_cons.1 h with ⟨hy, hys⟩
    simp only [insertDescBy]
    split
    · next hxy =>
      refine List.pairwise_cons.2 ⟨?_, h⟩
      intro b hb
      rcases List.mem_cons.1 hb with rfl | hb
      · exact (hge x b).1 hxy
      · exact le_trans (hy b hb) ((hge x y).1 hxy)
    · next hxy =>
      refine List.pairwise_cons.2 ⟨?_, ih hys⟩
      intro b hb
      rcases (mem_insertDescBy ge x b ys).1 hb with rfl | hb
      · exact le_of_not_le (fun hyx => hxy ((hge b y).2 hyx))
      · exact hy b hb

theorem sortDescBy_pairwise {α : Type} (ge : α → α → Bool) (key : α → ℚ)
    (hge : ∀ a b, ge a b = true ↔ key b ≤ key a) (l : List α) :
    (sortDescBy ge l).Pairwise (fun a b => key b ≤ key a) := by
  induction l with
  | nil => simp [sortDescBy]
  | cons x xs ih =>
    simp only [sortDescBy]
    exact pairwise_insertDescBy ge key hge x _ ih

/-- The arbitration pick is a member of the candidate list and its area is
the maximum of all candidate areas. -/
theorem selectWinner_spec (rs : List (String × Cand)) (nc : String × Cand)
    (h : selectWinner rs = some nc) :
    nc ∈ rs ∧ ∀ x ∈ rs, x.2.area ≤ nc.2.area := by
  unfold selectWinner at h
  have hge : ∀ a b : String × Cand,
      (decide (b.2.area ≤ a.2.area)) = true ↔
        (fun z : String × Cand => z.2.area) b ≤ (fun z : String × Cand => z.2.area) a := by
    intro a b; simp
  cases hs : sortDescBy (fun a b : String × Cand => decide (b.2.area ≤ a.2.area)) rs with
  | nil => rw [hs] at h; cases h
  | cons r rest =>
    rw [hs] at h
    rw [Option.some.inj h] at hs
    have hr : nc ∈ sortDescBy (fun a b : String × Cand => decide (b.2.area ≤ a.2.area)) rs := by
      rw [hs]; exact List.mem_cons_self _ _
    refine ⟨(mem_sortDescBy _ nc rs).1 hr, ?_⟩
    intro x hx
    have hx2 := (mem_sortDescBy
      (fun a b : String × Cand => decide (b.2.area ≤ a.2.area)) x rs).2 hx
    rw [hs] at hx2
    have hp := sortDescBy_pairwise (fun a b : String × Cand => decide (b.2.area ≤ a.2.area))
      (fun z : String × Cand => z.2.area) hge rs
    rw [hs] at hp
    rcases List.mem_cons.1 hx2 with rfl | hx2
    · exact le_refl _
    · exact (List.pairwise_cons.1 hp).1 x hx2

/-! ## Area-band lemmas -/

theorem canny_step_band (w h : ℕ) (acc : Option Cand × ℚ) (cnt : Contour)
    (hacc : ∀ c : Cand, acc.1 = some c →
      ((w * h : ℕ) : ℚ) * (1/10) < c.area ∧ c.area < ((w * h : ℕ) : ℚ) * (49/50)) :
    ∀ c : Cand, (canny_step w h acc cnt).1 = some c →
      ((w * h : ℕ) : ℚ) * (1/10) < c.area ∧ c.area < ((w * h : ℕ) : ℚ) * (49/50) := by
  intro c hc
  unfold canny_step at hc
  by_cases hband : ((w * h : ℕ) : ℚ) * (1/10) < cnt.area ∧
      cnt.area < ((w * h : ℕ) : ℚ) * (49/50)
  · rw [if_pos hband] at hc
    dsimp only at hc
    repeat' split at hc
    all_goals
      first
        | exact hacc c hc
        | (obtain rfl := Option.some.inj hc; exact hband)
  · rw [if_neg hband] at hc
    exact hacc c hc

theorem canny_fold_band (w h : ℕ) (l : List Contour) (acc : Option Cand × ℚ)
    (hacc : ∀ c : Cand, acc.1 = some c →
      ((w * h : ℕ) : ℚ) * (1/10) < c.area ∧ c.area < ((w * h : ℕ) : ℚ) * (49/50)) :
    ∀ c : Cand, (l.foldl (canny_step w h) acc).1 = some c →
      ((w * h : ℕ) : ℚ) * (1/10) < c.area ∧ c.area < ((w * h : ℕ) : ℚ) * (49/50) := by
  induction l generalizing acc with
  | nil => simpa using hacc
  | cons cnt rest ih =>
    intro c hc
    exact ih (canny_step w h acc cnt) (canny_step_band w h acc cnt hacc) c hc

theorem strategy_canny_band (ops : CVOps) (gray : RasterImage) (c : Cand)
    (h : strategy_canny ops gray = some c) :
    ((gray.width * gray.height : ℕ) : ℚ) * (1/10) < c.area ∧
      c.area < ((gray.width * gray.height : ℕ) : ℚ) * (49/50) := by
  simp only [strategy_canny] at h
  split at h
  · cases h
  · exact canny_fold_band gray.width gray.height _ _ (fun d hd => by cases hd) c h

theorem brightness_step_band (w h : ℕ) (acc : Option Cand × ℚ) (cnt : Contour)
    (hacc : ∀ c : Cand, acc.1 = some c →
      ((w * h : ℕ) : ℚ) * (1/10) < c.area ∧ c.area < ((w * h : ℕ) : ℚ) * (49/50)) :
    ∀ c : Cand, (brightness_step w h acc cnt).1 = some c →
      ((w * h : ℕ) : ℚ) * (1/10) < c.area ∧ c.area < ((w * h : ℕ) : ℚ) * (49/50) := by
  intro c hc
  unfold brightness_step at hc
  by_cases hband : ((w * h : ℕ) : ℚ) * (1/10) < cnt.area ∧
      cnt.area < ((w * h : ℕ) : ℚ) * (49/50) ∧ acc.2 < cnt.area
  · rw [if_pos hband] at hc
    dsimp only at hc
    repeat' split at hc
    all_goals
      first
        | exact hacc c hc
        | (obtain rfl := Option.some.inj hc; exact ⟨hband.1, hband.2.1⟩)
  · rw [if_neg hband] at hc
    exact hacc c hc

theorem brightness_fold_band (w h : ℕ) (l : List Contour) (acc : Option Cand × ℚ)
    (hacc : ∀ c : Cand, acc.1 = some c →
      ((w * h : ℕ) : ℚ) * (1/10) < c.area ∧ c.area < ((w * h : ℕ) : ℚ) * (49/50)) :
    ∀ c : Cand, (l.foldl (brightness_step w h) acc).1 = some c →
      ((w * h : ℕ) : ℚ) * (1/10) < c.area ∧ c.area < ((w * h : ℕ) : ℚ) * (49/50) := by
  induction l generalizing acc with
  | nil => simpa using hacc
  | cons cnt rest ih =>
    intro c hc
    exact ih (brightness_step w h acc cnt) (brightness_step_band w h acc cnt hacc) c hc

theorem strategy_brightness_band (ops : CVOps) (gray : RasterImage) (c : Cand)
    (h : strategy_brightness ops gray = some c) :
    ((gray.width * gray.height : ℕ) : ℚ) * (1/10) < c.area ∧
      c.area < ((gray.width * gray.height : ℕ) : ℚ) * (49/50) := by
  simp only [strategy_brightness] at h
  repeat' split at h
  all_goals
    first
      | cases h
      | exact brightness_fold_band gray.width gray.height _ _ (fun d hd => by cases hd) c h

theorem otsu_keep_band (w h : ℕ) (cnt : Contour) (t : ℚ × ℤ × ℤ × ℤ × ℤ)
    (ht : otsu_keep w h cnt = some t) :
    ((w * h : ℕ) : ℚ) * (1/10) < t.1 ∧ t.1 < ((w * h : ℕ) : ℚ) * (49/50) := by
  unfold otsu_keep at ht
  by_cases hband : ((w * h : ℕ) : ℚ) * (1/10) < cnt.area ∧
      cnt.area < ((w * h : ℕ) : ℚ) * (49/50)
  · rw [if_pos hband] at ht
    dsimp only at ht
    repeat' split at ht
    all_goals
      first
        | (obtain rfl := Option.some.inj ht; exact hband)
        | cases ht
  · rw [if_neg hband] at ht
    cases ht

theorem strategy_otsu_band (ops : CVOps) (gray : RasterImage) (c : Cand)
    (h : strategy_otsu ops gray = some c) :
    ((gray.width * gray.height : ℕ) : ℚ) * (1/10) < c.area ∧
      c.area < ((gray.width * gray.height : ℕ) : ℚ) * (49/50) := by
  simp only [strategy_otsu] at h
  split at h
  · cases h
  · next area x y cw ch rest heq =>
    injection h with h
    subst h
    have hmem : (area, x, y, cw, ch) ∈ sortDescBy otsuTupleGe
        (((ops.findContours (ops.morphCloseOpen10 (ops.otsu (ops.gaussianBlur5 gray)))).filterMap
            (otsu_keep gray.width gray.height))
          ++ ((ops.findContours (ops.morphCloseOpen10
              (ops.bitwiseNot (ops.otsu (ops.gaussianBlur5 gray))))).filterMap
            (otsu_keep gray.width gray.height))) := by
      rw [heq]; exact List.mem_cons_self _ _
    have hres := (mem_sortDescBy otsuTupleGe _ _).1 hmem
    rcases List.mem_append.1 hres with hm | hm <;>
      rcases List.mem_filterMap.1 hm with ⟨cnt, _, hk⟩ <;>
      exact otsu_keep_band gray.width gray.height cnt _ hk

/-- Membership in a tagged singleton list made from an optional candidate
identifies the candidate. -/
theorem mem_tag_toList {s nm : String} {o : Option Cand} {c : Cand}
    (h : (nm, c) ∈ o.toList.map (fun x => (s, x))) : o = some c := by
  cases o with
  | none => simp at h
  | some a =>
    simp only [Option.toList_some, List.map_cons, List.map_nil,
      List.mem_singleton, Prod.mk.injEq] at h
    rw [h.2]

/-! ## Claim C7 -/

/-- Claim C7: every boundary candidate any of the three strategies returns —
and in particular the one arbitration selects — has an area strictly between
0.10 and 0.98 of the image area; 1/10 and 49/50 are the exact values of the
float constants 0.10 and 0.98. -/
theorem c7_area_band (ops : CVOps) (g : RasterImage) (nm : String) (c : Cand)
    (h : (nm, c) ∈ detectResults ops g ∨ selectWinner (detectResults ops g) = some (nm, c)) :
    ((g.width * g.height : ℕ) : ℚ) * (1/10) < c.area ∧
      c.area < ((g.width * g.height : ℕ) : ℚ) * (49/50) := by
  have hmem : (nm, c) ∈ detectResults ops g := by
    rcases h with h | h
    · exact h
    · exact (selectWinner_spec _ _ h).1
  simp only [detectResults, List.mem_append] at hmem
  rcases hmem with (hm | hm) | hm
  · exact strategy_canny_band ops g c (mem_tag_toList hm)
  · exact strategy_otsu_band ops g c (mem_tag_toList hm)
  · exact strategy_brightness_band ops g c (mem_tag_toList hm)

/-! ## Claim C5 -/

theorem sortDescBy_ne_nil {α : Type} (ge : α → α → Bool) (l : List α) (h : l ≠ []) :
    sortDescBy ge l ≠ [] := by
  cases l with
  | nil => exact absurd rfl h
  | cons x xs =>
    intro hs
    have hx : x ∈ sortDescBy ge (x :: xs) :=
      (mem_sortDescBy ge x _).2 (List.mem_cons_self _ _)
    rw [hs] at hx
    cases hx

/-- Claim C5: for every non-empty candidate list produced by the three
strategies, arbitration selects a winner; the winner is one of the
candidates, its area is the globally largest among them, and the detection
function crops at exactly that candidate's margin-expanded rectangle. -/
theorem c5_arbitration_max_area (ops : CVOps) (image : RasterImage)
    (hne : detectResults ops (cvtGray image) ≠ []) :
    ∃ nm : String, ∃ c : Cand,
      selectWinner (detectResults ops (cvtGray image)) = some (nm, c) ∧
      (nm, c) ∈ detectResults ops (cvtGray image) ∧
      (∀ x ∈ detectResults ops (cvtGray image), x.2.area ≤ c.area) ∧
      detect_and_crop_invoice_improved ops image = cropWithMargin image c := by
  cases hw : selectWinner (detectResults ops (cvtGray image)) with
  | none =>
    exfalso
    unfold selectWinner at hw
    cases hs : sortDescBy (fun a b : String × Cand => decide (b.2.area ≤ a.2.area))
        (detectResults ops (cvtGray image)) with
    | nil => exact sortDescBy_ne_nil _ _ hne hs
    | cons r rest => rw [hs] at hw; cases hw
  | some nc =>
    obtain ⟨nm, c⟩ := nc
    obtain ⟨hmem, hmax⟩ := selectWinner_spec _ _ hw
    exact ⟨nm, c, rfl, hmem, hmax, by simp only [detect_and_crop_invoice_improved, hw]⟩

/-! ## Concrete evaluations -/

theorem strategy_canny_ce (g : RasterImage) (hw : g.width = 100) (hh : g.height = 100) :
    strategy_canny ceOps g = some ceCand := by
  simp only [strategy_canny, ceOps]
  norm_num [canny_step, ceContour, ceCand, hw, hh]

theorem strategy_otsu_ce (g : RasterImage) (hw : g.width = 100) (hh : g.height = 100) :
    strategy_otsu ceOps g = some ceCand := by
  simp only [strategy_otsu, ceOps]
  norm_num [otsu_keep, otsuTupleGe, sortDescBy, insertDescBy, ceContour, ceCand, hw, hh,
    List.filterMap]

theorem strategy_brightness_ce (g : RasterImage) (hw : g.width = 100) (hh : g.height = 100) :
    strategy_brightness ceOps g = some ceCand := by
  simp only [strategy_brightness, ceOps]
  norm_num [brightness_step, ceContour, ceCand, hw, hh]

theorem detectResults_ce (g : RasterImage) (hw : g.width = 100) (hh : g.height = 100) :
    detectResults ceOps g = [("Canny", ceCand), ("Otsu", ceCand), ("Brillo", ceCand)] := by
  simp [detectResults, strategy_canny_ce g hw hh, strategy_otsu_ce g hw hh,
    strategy_brightness_ce g hw hh]

theorem selectWinner_ce :
    selectWinner [("Canny", ceCand), ("Otsu", ceCand), ("Brillo", ceCand)] =
      some ("Canny", ceCand) := by
  norm_num [selectWinner, sortDescBy, insertDescBy, ceCand]

theorem selectWinner_ce_raw :
    selectWinner (detectResults ceOps (cvtGray ceImg)) = some ("Canny", ceCand) := by
  rw [detectResults_ce _ rfl rfl, selectWinner_ce]

theorem selectWinner_ce_pre :
    selectWinner (detectResults ceOps (cvtGray (preprocess_image_aggressive ceOps ceImg))) =
      some ("Canny", ceCand) := by
  rw [detectResults_ce _ rfl rfl, selectWinner_ce]

/-- Witness for C5 at the concrete instantiation. -/
theorem c5_arbitration_max_area_witness :
    ∃ nm : String, ∃ c : Cand,
      selectWinner (detectResults ceOps (cvtGray ceImg)) = some (nm, c) ∧
      (nm, c) ∈ detectResults ceOps (cvtGray ceImg) ∧
      (∀ x ∈ detectResults ceOps (cvtGray ceImg), x.2.area ≤ c.area) ∧
      detect_and_crop_invoice_improved ceOps ceImg = cropWithMargin ceImg c :=
  c5_arbitration_max_area ceOps ceImg
    (by rw [detectResults_ce _ rfl rfl]; simp)

/-- Witness for C7 at the concrete instantiation. -/
theorem c7_area_band_witness :
    (((cvtGray ceImg).width * (cvtGray ceImg).height : ℕ) : ℚ) * (1/10) < ceCand.area ∧
      ceCand.area < (((cvtGray ceImg).width * (cvtGray ceImg).height : ℕ) : ℚ) * (49/50) :=
  c7_area_band ceOps (cvtGray ceImg) "Canny" ceCand
    (Or.inl (by rw [detectResults_ce _ rfl rfl]; exact List.mem_cons_self _ _))

/-- The image component of the parametric pipeline result, with the pair
projection pushed through. -/
theorem process_result_image_eq (ops : CVOps) (image : RasterImage) (p : Params) :
    process_result_image ops image p =
      enhance_after_crop ops (normalizeParams p)
        (if (normalizeParams p).skip_crop = true then image
         else detect_and_crop_invoice_improved ops image) := by
  simp only [process_result_image, process_with_custom_params]
  cases he : enhance_after_crop ops (normalizeParams p)
      (if (normalizeParams p).skip_crop = true then image
       else detect_and_crop_invoice_improved ops image) <;> rfl

/-- The enhancement chain never reads skip_crop. -/
theorem enhance_after_crop_set_skip (ops : CVOps) (q : Params) (b : Bool)
    (image : RasterImage) :
    enhance_after_crop ops { q with skip_crop := b } image =
      enhance_after_crop ops q image := rfl

/-! ## Claim C1 -/

/-- Claim C1: when all three boundary strategies return no candidate on an
image, running the parametric pipeline with skip_crop = false produces the
same output image as running it with skip_crop = true, for identical
remaining parameters. -/
theorem c1_no_candidate_fallback (ops : CVOps) (image : RasterImage) (params : Params)
    (h1 : strategy_canny ops (cvtGray image) = none)
    (h2 : strategy_otsu ops (cvtGray image) = none)
    (h3 : strategy_brightness ops (cvtGray image) = none) :
    process_result_image ops image { params with skip_crop := false } =
    process_result_image ops image { params with skip_crop := true } := by
  have hres : detectResults ops (cvtGray image) = [] := by
    simp [detectResults, h1, h2, h3]
  have hdet : detect_and_crop_invoice_improved ops image = image := by
    simp only [detect_and_crop_invoice_improved, hres]
    rfl
  rw [process_result_image_eq, process_result_image_eq]
  simp only [normalizeParams_set_skip, enhance_after_crop_set_skip]
  simp [hdet]

/-- Witness for C1: with the contour-free instantiation all strategies return
no candidate, and the two calls agree on the concrete input. -/
theorem c1_no_candidate_fallback_witness :
    process_result_image pilOps ceImg { optimal_params false with skip_crop := false } =
    process_result_image pilOps ceImg { optimal_params false with skip_crop := true } :=
  c1_no_candidate_fallback pilOps ceImg (optimal_params false)
    (by simp [strategy_canny, pilOps])
    (by simp [strategy_otsu, pilOps, sortDescBy])
    (by simp [strategy_brightness, pilOps])

/-! ## Claim C2 -/

/-- Claim C2 (amended): in the fixed-default pipeline the crop stage receives
and crops the preprocessed (denoised / equalized, gray-replicated) copy, not
the raw input: when arbitration selects a winner, the cropped result is the
margin-expanded sub-region of the preprocessed image. -/
theorem c2_crop_reads_preprocessed (ops : CVOps) (image : RasterImage) (nm : String) (c : Cand)
    (h : selectWinner (detectResults ops (cvtGray (preprocess_image_aggressive ops image))) =
      some (nm, c)) :
    process_invoice_crop_stage ops image =
      cropWithMargin (preprocess_image_aggressive ops image) c := by
  simp only [process_invoice_crop_stage, detect_and_crop_invoice_improved, h]

/-- Witness for the amended C2 at the concrete instantiation. -/
theorem c2_crop_reads_preprocessed_witness :
    process_invoice_crop_stage ceOps ceImg =
      cropWithMargin (preprocess_image_aggressive ceOps ceImg) ceCand :=
  c2_crop_reads_preprocessed ceOps ceImg "Canny" ceCand selectWinner_ce_pre

/-- Counterexample for C2 as stated: on the all-red 100x100 input a winner is
selected, yet the first pixel of the cropped result is the gray value 60
coming from the preprocessed copy, not the raw pixel (the raw red channel
value at that position is 200). -/
theorem c2_counterexample :
    selectWinner (detectResults ceOps (cvtGray (preprocess_image_aggressive ceOps ceImg))) =
      some ("Canny", ceCand) ∧
    (process_invoice_crop_stage ceOps ceImg).pix 0 0 0 = 60 ∧
    ceImg.pix 0 20 20 = 200 ∧
    (process_invoice_crop_stage ceOps ceImg).pix 0 0 0 ≠ ceImg.pix 0 20 20 := by
  have hcrop : process_invoice_crop_stage ceOps ceImg =
      cropWithMargin (preprocess_image_aggressive ceOps ceImg) ceCand := by
    simp only [process_invoice_crop_stage, detect_and_crop_invoice_improved,
      selectWinner_ce_pre]
  have hpix : (process_invoice_crop_stage ceOps ceImg).pix 0 0 0 = 60 := by
    rw [hcrop]
    norm_num [cropWithMargin, cropImg, cropRegion, ceCand, preprocess_image_aggressive,
      gray2rgb, cvtGray, ceImg, ceOps]
  refine ⟨selectWinner_ce_pre, hpix, rfl, ?_⟩
  rw [hpix]
  decide
